import Mathlib

/-!
Verification of the KITTI dataset loading module (`src/utils/data.py`).

The Python module is embedded shallowly:
  * PIL images become `PILImg` (mode, height, width, flat pixel list of
    naturals — PNG samples are unsigned integers);
  * torch tensors become `Tensor` (a shape list and a flat rational data
    list — torchvision preprocessing works in exact rational arithmetic
    here, standing in for floats; no verified claim depends on float
    rounding);
  * the resampling kernel used by `transforms.Resize` is abstracted as an
    explicit `Resample` argument: no verified claim depends on the
    interpolated pixel values, only on the output geometry;
  * numpy randomness in `sklearn.model_selection.train_test_split` is
    abstracted as an explicit permutation argument `perm`: with a fixed
    `random_state`, numpy produces a fixed permutation, so determinism of
    the split reduces to the split being a function of `perm`;
  * the filesystem is an explicit `FS` value (directory listings in
    enumeration order, plus a path-to-image reading map);
  * fallible Python code (exceptions) becomes `Except LoadErr`.
-/

/-- PIL image modes used by the module: `RGB` color images, `I16`-style
integer depth maps as decoded from 16-bit PNG files, and `F` float images
produced by `convert("F")`. -/
inductive PMode where
  | RGB
  | I16
  | F
deriving DecidableEq

/-- A decoded PIL image: mode, height, width, and the flat pixel data.
PNG samples are unsigned integers, so pixels are naturals. -/
structure PILImg where
  mode : PMode
  h : Nat
  w : Nat
  pix : List Nat
deriving DecidableEq

/-- Channel count determined by the image mode, as PIL reports bands. -/
def PILImg.channels (img : PILImg) : Nat :=
  match img.mode with
  | PMode.RGB => 3
  | _ => 1

/-- A torch tensor: shape and flat rational data. -/
structure Tensor where
  shape : List Nat
  data : List ℚ
deriving DecidableEq

/-- torch.zeros_like: an all-zero tensor of the same shape (and size). -/
def zeros_like (t : Tensor) : Tensor :=
  ⟨t.shape, t.data.map (fun _ => (0 : ℚ))⟩

/-- np.array(image): numpy copies the PIL pixel buffer into a fresh array
(the default `copy=True` behavior); the array is the flat pixel list. -/
def npFromImage (img : PILImg) : List Nat := img.pix

/-- The in-place update `mask[mask > 0.0] = 1.0` on a numpy array of
unsigned pixel values: every strictly positive entry becomes 1, the rest
(necessarily 0) are left as they are. -/
def npSetPosToOne (a : List Nat) : List Nat :=
  a.map (fun v => if 0 < v then 1 else v)

/-- Image.fromarray: wrap the array back into an image with the geometry
and mode of the source. -/
def imageFromArray (mode : PMode) (h w : Nat) (a : List Nat) : PILImg :=
  ⟨mode, h, w, a⟩

/-- generate_mask from `src/utils/data.py`: copy the image into a numpy
array, set every strictly positive pixel to 1 in place, and wrap the
result as an image. -/
def generate_mask (img : PILImg) : PILImg :=
  imageFromArray img.mode img.h img.w (npSetPosToOne (npFromImage img))

/-- The call `generate_mask(x_s)` together with the state of its argument
after the call: the in-place update hits the fresh numpy copy, so the
argument image is returned unchanged as the second component. -/
def generate_mask_effect (img : PILImg) : PILImg × PILImg :=
  (generate_mask img, img)

/-- PIL `convert("F")`: a single-band float image; for the single-band
integer depth images this module converts, the numeric values are kept.
(The loaders only ever convert single-band images.) -/
def convertF (img : PILImg) : PILImg :=
  ⟨PMode.F, img.h, img.w, img.pix⟩

/-- The resampling kernel of `transforms.Resize`, abstracted: given the
source image and the target height and width, produce the resampled flat
pixel data. -/
abbrev Resample := PILImg → Nat → Nat → List Nat

/-- transforms.Resize((h, w)): the output has the requested geometry and
the mode of the input; pixel data comes from the resampling kernel. -/
def resizeImg (resample : Resample) (h w : Nat) (img : PILImg) : PILImg :=
  ⟨img.mode, h, w, resample img h w⟩

/-- transforms.ToTensor value scaling: 8-bit color images are scaled to
[0,1] by dividing by 255; integer and float depth images are taken as is
(torchvision does not rescale mode I or mode F images). -/
def toTensorScale (mode : PMode) (v : Nat) : ℚ :=
  match mode with
  | PMode.RGB => (v : ℚ) / 255
  | _ => (v : ℚ)

/-- transforms.ToTensor: a (channels, height, width) tensor whose data is
the scaled pixel data. -/
def to_tensor (img : PILImg) : Tensor :=
  ⟨[img.channels, img.h, img.w], img.pix.map (fun v => toTensorScale img.mode v)⟩

/-- Flat index `i` of a (c, h, w) tensor lies in channel `i / (h * w)`. -/
def chanOf (h w i : Nat) : Nat := i / (h * w)

/-- Map a function over a list together with the running index, starting
at a given index. -/
def mapWithIdx (f : Nat → ℚ → ℚ) : Nat → List ℚ → List ℚ
  | _, [] => []
  | i, v :: rest => f i v :: mapWithIdx f (i + 1) rest

/-- transforms.Normalize(mean, std): per-channel affine rescaling
`(v - mean[c]) / std[c]` of a (c, h, w) tensor. A tensor that is not
3-dimensional is returned unchanged (torch would reject it; the pipeline
never produces one). Out-of-range channel statistics fall back to the
neutral 0 and 1 (the pipeline always passes stats matching the channel
count). -/
def tvNormalize (mean std : List ℚ) (t : Tensor) : Tensor :=
  match t.shape with
  | [_, h, w] =>
    ⟨t.shape, mapWithIdx (fun i v => (v - mean.getD (chanOf h w i) 0) / std.getD (chanOf h w i) 1) 0 t.data⟩
  | _ => t

/-- ImageNet channel means used by the color pipeline. -/
def imagenetMean : List ℚ := [0.485, 0.456, 0.406]

/-- ImageNet channel standard deviations used by the color pipeline. -/
def imagenetStd : List ℚ := [0.229, 0.224, 0.225]

/-- The color pipeline `preprocess` / `preprocess_c`: Resize((352, 1216)),
ToTensor, Normalize(ImageNet mean, ImageNet std). -/
def preprocess_c (resample : Resample) (img : PILImg) : Tensor :=
  tvNormalize imagenetMean imagenetStd (to_tensor (resizeImg resample 352 1216 img))

/-- The depth/mask pipeline `preprocess_d`: Resize((352, 1216)), ToTensor,
Normalize([0.0], [1.0]). -/
def preprocess_d (resample : Resample) (img : PILImg) : Tensor :=
  tvNormalize [0] [1] (to_tensor (resizeImg resample 352 1216 img))

/-- The depth loader step for one sparse-depth image `x_s`:
`x_m = generate_mask(x_s)` followed by
`x_s = preprocess_d(x_s.convert("F"))` and
`x_m = preprocess_d(x_m.convert("F"))`; the sensor preprocessing uses the
state of `x_s` after the `generate_mask` call. Returns (sensor tensor,
mask tensor). -/
def processSensor (resample : Resample) (x_s : PILImg) : Tensor × Tensor :=
  let me := generate_mask_effect x_s
  (preprocess_d resample (convertF me.2), preprocess_d resample (convertF me.1))

/-- Python `s.split(sep)` on character lists, fuel-indexed so that it is
structurally recursive: scan left to right, cut at each non-overlapping
occurrence of the (non-empty) separator. The fuel is always taken to be
the length of the string, which suffices since every step consumes at
least one character. -/
def pySplitFuel (sep : List Char) : Nat → List Char → List Char → List (List Char)
  | _, [], acc => [acc.reverse]
  | 0, rest, acc => [acc.reverse ++ rest]
  | fuel + 1, c :: rest, acc =>
    if sep.isPrefixOf (c :: rest) then
      acc.reverse :: pySplitFuel sep fuel (rest.drop (sep.length - 1)) []
    else
      pySplitFuel sep fuel rest (c :: acc)

/-- Python `s.split(sep)` for strings (non-empty separator). -/
def strSplitPy (sep s : String) : List String :=
  (pySplitFuel sep.data s.data.length s.data []).map (fun cs => String.mk cs)

/-- Errors the loaders can raise, mirroring the Python exceptions:
TypeError for a non-path `load_dir`; the IOError of a failed
`Image.open`; the IndexError of the depth filename split; the ValueError
raised by `train_test_split` on inconsistent array lengths or an empty
train subset; the error of `torch.stack` on an empty or ragged list. -/
inductive LoadErr where
  | typeError
  | openFailed (path : String)
  | indexError (name : String)
  | inconsistentLength
  | emptyTrainSplit
  | stackError
deriving DecidableEq

/-- The depth-train filename handling:
`filename = filename.name.split("_image_")` followed by
`file_prefix, file_suffix = filename[0], f"{filename[1]}_image_{filename[2]}"`.
The subscripts `[1]` and `[2]` demand at least three parts, i.e. at least
two occurrences of `_image_`; otherwise Python raises IndexError. -/
def depthTrainFilename (nm : String) : Except LoadErr (String × String) :=
  match strSplitPy ("_image_") nm with
  | p0 :: p1 :: p2 :: _ => Except.ok (p0, p1 ++ "_image_" ++ p2)
  | _ => Except.error (LoadErr.indexError nm)

/-- Sibling sparse-depth path built by the depth loader. -/
def velodyneRawPath (pre suf : String) : String :=
  "val_selection_cropped/velodyne_raw/" ++ pre ++ "_velodyne_raw_" ++ suf

/-- Sibling ground-truth path built by the depth loader. -/
def groundtruthDepthPath (pre suf : String) : String :=
  "val_selection_cropped/groundtruth_depth/" ++ pre ++ "_groundtruth_depth_" ++ suf

deriving instance DecidableEq for Except

/-- The number of held-out samples computed by
`sklearn.model_selection.train_test_split` for a fractional `test_size`:
`ceil(test_size * n)`. The ceiling is written out on the reduced
numerator/denominator of the rational ratio (for a non-positive ratio it
is 0), which is exactly `⌈ratio * n⌉` for the ratios the loaders pass. -/
def nTestOf (ratio : ℚ) (n : Nat) : Nat :=
  if ratio.num ≤ 0 then 0 else (ratio.num.toNat * n + ratio.den - 1) / ratio.den

/-- train_test_split size validation: `n_train = n - n_test`; sklearn
raises ValueError when the resulting train set would be empty. -/
def validateSplit (n : Nat) (ratio : ℚ) : Except LoadErr (Nat × Nat) :=
  if n - nTestOf ratio n = 0 then Except.error LoadErr.emptyTrainSplit
  else Except.ok (n - nTestOf ratio n, nTestOf ratio n)

/-- The index partition computed by train_test_split: with `shuffle=True`,
sklearn draws a permutation of `range n` from the seeded RNG (abstracted
here as `perm`), takes the first `n_test` indices as the test (validation)
set and the next `n_train` as the train set; with `shuffle=False` it takes
`range n` in order, train first. Returns (train indices, test indices). -/
def splitIdx (n nTr nTe : Nat) (shuffle : Bool) (perm : List Nat) : List Nat × List Nat :=
  if shuffle then ((perm.drop nTe).take nTr, perm.take nTe)
  else ((List.range n).take nTr, ((List.range n).drop nTr).take nTe)

/-- Select the elements of `xs` at the given indices, in order. -/
def selectIdx {α : Type} (idx : List Nat) (xs : List α) : List α :=
  idx.filterMap (fun i => xs[i]?)

/-- The train-index list of the split, as a function of the collection
size, ratio, shuffle flag, and RNG permutation. -/
def splitTrainIdx (n : Nat) (ratio : ℚ) (shuffle : Bool) (perm : List Nat) : List Nat :=
  (splitIdx n (n - nTestOf ratio n) (nTestOf ratio n) shuffle perm).1

/-- The test-index (validation-index) list of the split. -/
def splitTestIdx (n : Nat) (ratio : ℚ) (shuffle : Bool) (perm : List Nat) : List Nat :=
  (splitIdx n (n - nTestOf ratio n) (nTestOf ratio n) shuffle perm).2

/-- Result of `train_test_split(X, Y, ...)`: train/validation halves of
both parallel arrays. -/
structure Split2 (α : Type) where
  Xtr : List α
  Xva : List α
  Ytr : List α
  Yva : List α
deriving DecidableEq

/-- Result of `train_test_split(A, B, C, D, ...)`: train/validation
halves of the four parallel arrays. -/
structure Split4 (α : Type) where
  Atr : List α
  Ava : List α
  Btr : List α
  Bva : List α
  Ctr : List α
  Cva : List α
  Dtr : List α
  Dva : List α
deriving DecidableEq

/-- `train_test_split(X, Y, test_size=ratio, shuffle=shuffle,
random_state=seed)`: checks the arrays have consistent length, validates
the split sizes, and applies one index partition to both arrays. -/
def train_test_split2 {α : Type} (X Y : List α) (ratio : ℚ) (shuffle : Bool)
    (perm : List Nat) : Except LoadErr (Split2 α) :=
  if Y.length = X.length then
    (validateSplit X.length ratio).bind (fun _ =>
      Except.ok ⟨selectIdx (splitTrainIdx X.length ratio shuffle perm) X,
                 selectIdx (splitTestIdx X.length ratio shuffle perm) X,
                 selectIdx (splitTrainIdx X.length ratio shuffle perm) Y,
                 selectIdx (splitTestIdx X.length ratio shuffle perm) Y⟩)
  else Except.error LoadErr.inconsistentLength

/-- `train_test_split(A, B, C, D, ...)`: the same index partition is
applied to all four parallel arrays. -/
def train_test_split4 {α : Type} (A B C D : List α) (ratio : ℚ) (shuffle : Bool)
    (perm : List Nat) : Except LoadErr (Split4 α) :=
  if B.length = A.length ∧ C.length = A.length ∧ D.length = A.length then
    (validateSplit A.length ratio).bind (fun _ =>
      Except.ok ⟨selectIdx (splitTrainIdx A.length ratio shuffle perm) A,
                 selectIdx (splitTestIdx A.length ratio shuffle perm) A,
                 selectIdx (splitTrainIdx A.length ratio shuffle perm) B,
                 selectIdx (splitTestIdx A.length ratio shuffle perm) B,
                 selectIdx (splitTrainIdx A.length ratio shuffle perm) C,
                 selectIdx (splitTestIdx A.length ratio shuffle perm) C,
                 selectIdx (splitTrainIdx A.length ratio shuffle perm) D,
                 selectIdx (splitTestIdx A.length ratio shuffle perm) D⟩)
  else Except.error LoadErr.inconsistentLength

/-- The filesystem seen by a loader, rooted at `load_dir`: for each
relative directory pattern, the filenames the glob enumerates (in
filesystem enumeration order), and for each relative path, the decoded
image when the file exists and decodes. -/
structure FS where
  listing : String → List String
  read : String → Option PILImg

/-- load_image / Image.open: fails (propagating the exception) when the
path does not exist or does not decode. -/
def readImg (fs : FS) (p : String) : Except LoadErr PILImg :=
  match fs.read p with
  | some img => Except.ok img
  | none => Except.error (LoadErr.openFailed p)

/-- The Python value passed as `load_dir`: a pathlib.Path, a str, or any
other value (matched by the `isinstance(load_dir, (Path, str))` check). -/
inductive PyArg where
  | path (p : String)
  | str (s : String)
  | other (r : String)
deriving DecidableEq

/-- The `isinstance(load_dir, (Path, str))` guard both loaders run before
anything else: Path and str are accepted (and wrapped into a Path), any
other value raises TypeError. -/
def checkLoadDir : PyArg → Except LoadErr String
  | PyArg.path p => Except.ok p
  | PyArg.str s => Except.ok s
  | PyArg.other _ => Except.error LoadErr.typeError

/-- torch.stack succeeds on a non-empty list of equally-shaped tensors. -/
def torchStackOk (ts : List Tensor) : Bool :=
  match ts with
  | [] => false
  | t :: rest => rest.all (fun u => decide (u.shape = t.shape))

/-- KittiSemanticsDataset: stacks the input and target tensor lists and
holds them; no further validation is performed. -/
structure KittiSemanticsDataset where
  X : List Tensor
  Y : List Tensor
deriving DecidableEq

/-- The KittiSemanticsDataset constructor: `torch.stack(X)` and
`torch.stack(Y)` fail on an empty or ragged list; nothing else is
checked. -/
def KittiSemanticsDataset.make (X Y : List Tensor) : Except LoadErr KittiSemanticsDataset :=
  if torchStackOk X && torchStackOk Y then Except.ok ⟨X, Y⟩
  else Except.error LoadErr.stackError

/-- Dataset `__len__`: the length of the stacked input sequence. -/
def KittiSemanticsDataset.len (d : KittiSemanticsDataset) : Nat := d.X.length

/-- KittiDepthDataset: color, sensor (sparse depth), mask, and target
tensor sequences. -/
structure KittiDepthDataset where
  X : List Tensor
  X_sensor : List Tensor
  X_mask : List Tensor
  Y : List Tensor
deriving DecidableEq

/-- The KittiDepthDataset constructor: the superclass stacks `X_color`
and `Y`, then `X_sensor` and `X_mask` are stacked; each stack fails on an
empty or ragged list, and no comparison between the four lengths is ever
made. -/
def KittiDepthDataset.make (Xc Xs Xm Yl : List Tensor) : Except LoadErr KittiDepthDataset :=
  if torchStackOk Xc && torchStackOk Yl && torchStackOk Xs && torchStackOk Xm then
    Except.ok ⟨Xc, Xs, Xm, Yl⟩
  else Except.error LoadErr.stackError

/-- Depth dataset `__len__`: inherited, the length of the color
sequence. -/
def KittiDepthDataset.len (d : KittiDepthDataset) : Nat := d.X.length

/-- Run a fallible per-filename step over a directory listing, collecting
the results in order; the first exception aborts the whole loader call. -/
def collectE {β : Type} (f : String → Except LoadErr β) : List String → Except LoadErr (List β)
  | [] => Except.ok []
  | nm :: rest => (f nm).bind (fun b => (collectE f rest).map (fun bs => b :: bs))

/-- One iteration of the semantics train/validation loop: open and
preprocess `training/image_2/<nm>` and its paired
`training/semantic_rgb/<nm>` target with the color pipeline. -/
def processSemTrain (resample : Resample) (fs : FS) (nm : String) :
    Except LoadErr (Tensor × Tensor) :=
  (readImg fs ("training/image_2/" ++ nm)).bind (fun xImg =>
    (readImg fs ("training/semantic_rgb/" ++ nm)).map (fun yImg =>
      (preprocess_c resample xImg, preprocess_c resample yImg)))

/-- One iteration of the semantics test loop: open and preprocess
`testing/image_2/<nm>`; the target is `torch.zeros_like(x)`. -/
def processSemTest (resample : Resample) (fs : FS) (nm : String) :
    Except LoadErr (Tensor × Tensor) :=
  (readImg fs ("testing/image_2/" ++ nm)).map (fun xImg =>
    let x := preprocess_c resample xImg
    (x, zeros_like x))

/-- One iteration of the depth train/validation loop: preprocess the
color image, split the filename, open the sibling sparse-depth image,
derive the mask and preprocess both, open and preprocess the sibling
ground-truth image. Returns (color, sensor, mask, target). -/
def processDepthTrain (resample : Resample) (fs : FS) (nm : String) :
    Except LoadErr (Tensor × Tensor × Tensor × Tensor) :=
  (readImg fs ("val_selection_cropped/image/" ++ nm)).bind (fun xcImg =>
    let x_c := preprocess_c resample xcImg
    (depthTrainFilename nm).bind (fun ps =>
      (readImg fs (velodyneRawPath ps.1 ps.2)).bind (fun xsImg =>
        let sm := processSensor resample xsImg
        (readImg fs (groundtruthDepthPath ps.1 ps.2)).map (fun yImg =>
          (x_c, sm.1, sm.2, preprocess_d resample (convertF yImg))))))

/-- One iteration of the depth test loop: preprocess the color image,
open the same-named sparse-depth sibling (no filename rewriting), derive
and preprocess mask and sensor; the target is `torch.zeros_like(x_c)`,
shaped like the color tensor. -/
def processDepthTest (resample : Resample) (fs : FS) (nm : String) :
    Except LoadErr (Tensor × Tensor × Tensor × Tensor) :=
  (readImg fs ("test_depth_completion_anonymous/image/" ++ nm)).bind (fun xcImg =>
    (readImg fs ("test_depth_completion_anonymous/velodyne_raw/" ++ nm)).map (fun xsImg =>
      let x_c := preprocess_c resample xcImg
      let sm := processSensor resample xsImg
      (x_c, sm.1, sm.2, zeros_like x_c)))

/-- First component of a 4-tuple of tensors. -/
def t4a {α : Type} (t : α × α × α × α) : α := t.1

/-- Second component of a 4-tuple of tensors. -/
def t4b {α : Type} (t : α × α × α × α) : α := t.2.1

/-- Third component of a 4-tuple of tensors. -/
def t4c {α : Type} (t : α × α × α × α) : α := t.2.2.1

/-- Fourth component of a 4-tuple of tensors. -/
def t4d {α : Type} (t : α × α × α × α) : α := t.2.2.2

/-- load_kitti_semantics_dataset: check `load_dir`, collect and
preprocess the training pairs in glob order, split them with
train_test_split, collect the test inputs with zero targets, and wrap the
three partitions. -/
def load_kitti_semantics_dataset (resample : Resample) (load_dir : PyArg) (val_ratio : ℚ)
    (shuffle : Bool) (perm : List Nat) (fs : FS) :
    Except LoadErr (KittiSemanticsDataset × KittiSemanticsDataset × KittiSemanticsDataset) :=
  (checkLoadDir load_dir).bind (fun _ =>
    (collectE (processSemTrain resample fs) (fs.listing ("training/image_2"))).bind (fun xy =>
      (train_test_split2 (xy.map Prod.fst) (xy.map Prod.snd) val_ratio shuffle perm).bind (fun s =>
        (collectE (processSemTest resample fs) (fs.listing ("testing/image_2"))).bind (fun xyT =>
          (KittiSemanticsDataset.make s.Xtr s.Ytr).bind (fun trD =>
            (KittiSemanticsDataset.make s.Xva s.Yva).bind (fun vaD =>
              (KittiSemanticsDataset.make (xyT.map Prod.fst) (xyT.map Prod.snd)).map (fun teD =>
                (trD, vaD, teD))))))))

/-- The value returned by load_kitti_depth_dataset: a (train, validation)
pair when `train=True`, a single test dataset when `train=False`. -/
inductive DepthResult where
  | trainVal (tr va : KittiDepthDataset)
  | testOnly (te : KittiDepthDataset)
deriving DecidableEq

/-- load_kitti_depth_dataset: check `load_dir`; when `train=True` collect
the four parallel tensor lists from `val_selection_cropped`, split them
with one train_test_split call, and wrap train and validation datasets;
when `train=False` collect from `test_depth_completion_anonymous` with
all-zero targets and wrap a single test dataset. -/
def load_kitti_depth_dataset (resample : Resample) (load_dir : PyArg) (val_ratio : ℚ)
    (shuffle : Bool) (perm : List Nat) (train : Bool) (fs : FS) :
    Except LoadErr DepthResult :=
  (checkLoadDir load_dir).bind (fun _ =>
    if train then
      (collectE (processDepthTrain resample fs) (fs.listing ("val_selection_cropped/image"))).bind (fun l =>
        (train_test_split4 (l.map t4a) (l.map t4b) (l.map t4c) (l.map t4d) val_ratio shuffle perm).bind (fun s =>
          (KittiDepthDataset.make s.Atr s.Btr s.Ctr s.Dtr).bind (fun trD =>
            (KittiDepthDataset.make s.Ava s.Bva s.Cva s.Dva).map (fun vaD =>
              DepthResult.trainVal trD vaD))))
    else
      (collectE (processDepthTest resample fs) (fs.listing ("test_depth_completion_anonymous/image"))).bind (fun l =>
        (KittiDepthDataset.make (l.map t4a) (l.map t4b) (l.map t4c) (l.map t4d)).map (fun teD =>
          DepthResult.testOnly teD)))

/-- True unless the result is precisely the `load_dir` TypeError; used to
state that path-like arguments never trip the type check. -/
def notTypeError {α : Type} : Except LoadErr α → Bool
  | Except.error LoadErr.typeError => false
  | _ => true

/-- A small tensor used in concrete checks (shape only; the container
code never inspects the data). -/
def demoTensor : Tensor := ⟨[1, 2, 2], []⟩

/-- A resampling kernel used in concrete checks: keep the source pixel
data unchanged. -/
def resampleW : Resample := fun img _ _ => img.pix

/-- The ratio 1/5 (the default `val_ratio=0.2`) given in reduced form,
used in concrete checks. -/
def ratioFifth : ℚ := ⟨1, 5, by decide, Nat.coprime_one_left 5⟩

/-- A color image used in concrete checks. -/
def imgColorW : PILImg := ⟨PMode.RGB, 1, 1, [7, 8, 9]⟩

/-- A second color image used in concrete checks. -/
def imgColorW2 : PILImg := ⟨PMode.RGB, 1, 1, [10, 11, 12]⟩

/-- A sparse-depth image used in concrete checks. -/
def imgDepthW : PILImg := ⟨PMode.I16, 1, 1, [5]⟩

/-- A one-file filesystem for the depth test loader, used in concrete
checks. -/
def fsDepthW : FS :=
  ⟨fun d => if d = "test_depth_completion_anonymous/image" then ["a.png"] else [],
   fun p =>
     if p = "test_depth_completion_anonymous/image/a.png" then some imgColorW
     else if p = "test_depth_completion_anonymous/velodyne_raw/a.png" then some imgDepthW
     else none⟩

/-- A filesystem with two semantics training pairs and one test file,
used in concrete checks. -/
def fsSemW : FS :=
  ⟨fun d => if d = "training/image_2" then ["a.png", "b.png"]
            else if d = "testing/image_2" then ["t.png"] else [],
   fun p =>
     if p = "training/image_2/a.png" then some imgColorW
     else if p = "training/image_2/b.png" then some imgColorW2
     else if p = "training/semantic_rgb/a.png" then some imgColorW
     else if p = "training/semantic_rgb/b.png" then some imgColorW2
     else if p = "testing/image_2/t.png" then some imgColorW
     else none⟩

/-- The depth test dataset the loader builds over `fsDepthW`, used in
concrete checks. -/
def depthTestW : KittiDepthDataset :=
  match load_kitti_depth_dataset resampleW (PyArg.path ("root")) ratioFifth true [] false fsDepthW with
  | Except.ok (DepthResult.testOnly d) => d
  | _ => ⟨[], [], [], []⟩

/-- The semantics datasets the loader builds over `fsSemW`, used in
concrete checks. -/
def semResW : KittiSemanticsDataset × KittiSemanticsDataset × KittiSemanticsDataset :=
  match load_kitti_semantics_dataset resampleW (PyArg.path ("root")) ratioFifth true (List.range 2) fsSemW with
  | Except.ok r => r
  | _ => (⟨[], []⟩, ⟨[], []⟩, ⟨[], []⟩)

theorem except_bind_ok {ε α β : Type} {x : Except ε α} {f : α → Except ε β} {b : β} :
    x.bind f = Except.ok b ↔ ∃ a, x = Except.ok a ∧ f a = Except.ok b := by
  cases x <;> simp [Except.bind]

theorem except_map_ok {ε α β : Type} {x : Except ε α} {g : α → β} {b : β} :
    Except.map g x = Except.ok b ↔ ∃ a, x = Except.ok a ∧ g a = b := by
  cases x <;> simp [Except.map]

theorem mapWithIdx_id (f : Nat → ℚ → ℚ) (hf : ∀ i v, f i v = v) :
    ∀ (i : Nat) (xs : List ℚ), mapWithIdx f i xs = xs := by
  intro i xs
  induction xs generalizing i with
  | nil => rfl
  | cons v rest ih => simp [mapWithIdx, hf, ih]

theorem depthStatMean_getD (k : Nat) : ([0] : List ℚ).getD k 0 = 0 := by
  cases k <;> rfl

theorem depthStatStd_getD (k : Nat) : ([1] : List ℚ).getD k 1 = 1 := by
  cases k <;> rfl

theorem tvNormalize_depth_id (t : Tensor) : tvNormalize [0] [1] t = t := by
  unfold tvNormalize
  split
  · rcases t with ⟨shape, data⟩
    simp only
    congr 1
    exact mapWithIdx_id _ (fun i v => by simp [depthStatMean_getD, depthStatStd_getD]) 0 data
  · rfl

/-- Claim C9: the Normalize stage of the depth/mask pipeline, configured
with mean 0 and std 1, is the identity on every tensor, so `preprocess_d`
coincides with resize followed by tensor conversion alone. -/
theorem c9_depth_normalize_identity :
    (∀ t : Tensor, tvNormalize [0] [1] t = t)
    ∧ (∀ (resample : Resample) (img : PILImg),
        preprocess_d resample img = to_tensor (resizeImg resample 352 1216 img)) := by
  refine ⟨tvNormalize_depth_id, fun resample img => ?_⟩
  unfold preprocess_d
  exact tvNormalize_depth_id _

/-- Claim C2: `generate_mask` maps every strictly positive pixel to 1 and
every other pixel to 0 (unsigned pixels that are not positive are 0 and
stay 0), preserving mode and geometry; the pixel row [0,0,5,0,3] becomes
[0,0,1,0,1], and an all-zero image is returned unchanged, without
error. -/
theorem c2_generate_mask_binary :
    (∀ img : PILImg, generate_mask img =
      ⟨img.mode, img.h, img.w, img.pix.map (fun v => if 0 < v then 1 else 0)⟩)
    ∧ generate_mask ⟨PMode.I16, 1, 5, [0, 0, 5, 0, 3]⟩ = ⟨PMode.I16, 1, 5, [0, 0, 1, 0, 1]⟩
    ∧ (∀ (mode : PMode) (h w n : Nat),
        generate_mask ⟨mode, h, w, List.replicate n 0⟩ = ⟨mode, h, w, List.replicate n 0⟩) := by
  refine ⟨fun img => ?_, by decide, fun mode h w n => ?_⟩
  · unfold generate_mask imageFromArray npSetPosToOne npFromImage
    congr 1
    apply List.map_congr_left
    intro v _
    cases v <;> simp
  · unfold generate_mask imageFromArray npSetPosToOne npFromImage
    simp

/-- Claim C8: `generate_mask` is idempotent, since its output pixels are
already 0 or 1. -/
theorem c8_generate_mask_idempotent (img : PILImg) :
    generate_mask (generate_mask img) = generate_mask img := by
  unfold generate_mask imageFromArray npSetPosToOne npFromImage
  simp only [List.map_map]
  congr 1
  apply List.map_congr_left
  intro v _
  cases v <;> simp

/-- Claim C10: `generate_mask` leaves its argument image unchanged (the
in-place threshold hits a fresh numpy copy), so the sensor tensor the
depth loader builds after deriving the mask is the preprocessing of the
original sparse-depth image. -/
theorem c10_generate_mask_pure :
    (∀ img : PILImg,
      (generate_mask_effect img).2 = img ∧ (generate_mask_effect img).1 = generate_mask img)
    ∧ (∀ (resample : Resample) (img : PILImg),
        (processSensor resample img).1 = preprocess_d resample (convertF img)
        ∧ (processSensor resample img).2 = preprocess_d resample (convertF (generate_mask img))) :=
  ⟨fun _ => ⟨rfl, rfl⟩, fun _ _ => ⟨rfl, rfl⟩⟩

/-- Claim C1 counterexample: on the filename
`2011_09_26_drive_0002_image_0000000005.png`, which contains a single
occurrence of `_image_`, the depth loader filename handling raises
IndexError rather than producing the prefix `2011_09_26_drive_0002` and
suffix `0000000005.png` the claim asserts. -/
theorem c1_counterexample :
    depthTrainFilename ("2011_09_26_drive_0002_image_0000000005.png") =
      Except.error (LoadErr.indexError ("2011_09_26_drive_0002_image_0000000005.png"))
    ∧ decide (depthTrainFilename ("2011_09_26_drive_0002_image_0000000005.png") =
        Except.ok ("2011_09_26_drive_0002", "0000000005.png")) = false := by
  exact ⟨by decide, by decide⟩

/-- Claim C1 (amended): the depth loader splits a filename on `_image_`
and requires at least three parts (two occurrences); the prefix is the
first part and the suffix is the second and third parts rejoined with
`_image_`; sibling paths substitute `velodyne_raw` and
`groundtruth_depth` for the first `image` token. A filename with a single
occurrence, such as `2011_09_26_drive_0002_image_0000000005.png`, raises
IndexError; the KITTI-style
`2011_09_26_drive_0002_sync_image_0000000005_image_02.png` yields prefix
`2011_09_26_drive_0002_sync` and suffix `0000000005_image_02.png`. -/
theorem c1_filename_split_amended :
    (∀ (nm p0 p1 p2 : String) (rest : List String),
      strSplitPy ("_image_") nm = p0 :: p1 :: p2 :: rest →
      depthTrainFilename nm = Except.ok (p0, p1 ++ "_image_" ++ p2))
    ∧ (∀ (nm : String) (p0 : String),
      strSplitPy ("_image_") nm = [p0] →
      depthTrainFilename nm = Except.error (LoadErr.indexError nm))
    ∧ (∀ (nm : String) (p0 p1 : String),
      strSplitPy ("_image_") nm = [p0, p1] →
      depthTrainFilename nm = Except.error (LoadErr.indexError nm))
    ∧ strSplitPy ("_image_") ("2011_09_26_drive_0002_image_0000000005.png") =
      ["2011_09_26_drive_0002", "0000000005.png"]
    ∧ depthTrainFilename ("2011_09_26_drive_0002_sync_image_0000000005_image_02.png") =
      Except.ok ("2011_09_26_drive_0002_sync", "0000000005_image_02.png")
    ∧ velodyneRawPath ("2011_09_26_drive_0002_sync") ("0000000005_image_02.png") =
      "val_selection_cropped/velodyne_raw/2011_09_26_drive_0002_sync_velodyne_raw_0000000005_image_02.png"
    ∧ groundtruthDepthPath ("2011_09_26_drive_0002_sync") ("0000000005_image_02.png") =
      "val_selection_cropped/groundtruth_depth/2011_09_26_drive_0002_sync_groundtruth_depth_0000000005_image_02.png" := by
  refine ⟨fun nm p0 p1 p2 rest hs => ?_, fun nm p0 hs => ?_, fun nm p0 p1 hs => ?_,
    by decide, by decide, by decide, by decide⟩
  · unfold depthTrainFilename
    rw [hs]
  · unfold depthTrainFilename
    rw [hs]
  · unfold depthTrainFilename
    rw [hs]

/-- Claim C1 witness for the amended general part: the split of the
KITTI-style filename has three parts, and the general rule then computes
the prefix and suffix. -/
theorem c1_filename_split_amended_witness :
    depthTrainFilename ("2011_09_26_drive_0002_sync_image_0000000005_image_02.png") =
      Except.ok ("2011_09_26_drive_0002_sync", "0000000005" ++ "_image_" ++ "02.png") :=
  c1_filename_split_amended.1 ("2011_09_26_drive_0002_sync_image_0000000005_image_02.png")
    ("2011_09_26_drive_0002_sync") ("0000000005") ("02.png") [] (by decide)

/-- Claim C7 counterexample: the KittiDepthDataset constructor accepts
parallel lists of differing lengths — one color tensor against two sensor
tensors — and yields a container whose reported length 1 disagrees with
its sensor field of length 2; nothing is rejected. -/
theorem c7_counterexample :
    KittiDepthDataset.make [demoTensor] [demoTensor, demoTensor] [demoTensor] [demoTensor] =
      Except.ok ⟨[demoTensor], [demoTensor, demoTensor], [demoTensor], [demoTensor]⟩
    ∧ KittiDepthDataset.len ⟨[demoTensor], [demoTensor, demoTensor], [demoTensor], [demoTensor]⟩ = 1
    ∧ (KittiDepthDataset.X_sensor
        ⟨[demoTensor], [demoTensor, demoTensor], [demoTensor], [demoTensor]⟩).length = 2
    ∧ decide (KittiDepthDataset.len ⟨[demoTensor], [demoTensor, demoTensor], [demoTensor], [demoTensor]⟩ =
        (KittiDepthDataset.X_sensor
          ⟨[demoTensor], [demoTensor, demoTensor], [demoTensor], [demoTensor]⟩).length) = false := by
  exact ⟨rfl, rfl, rfl, rfl⟩

/-- Claim C7 (amended): the constructor only runs the four `torch.stack`
calls (each fails on an empty or ragged list) and never compares the four
lengths; when it is given parallel lists of equal length, the resulting
container reports a length that agrees with every field. -/
theorem c7_equal_length_parallel (Xc Xs Xm Yl : List Tensor)
    (hs : Xs.length = Xc.length) (hm : Xm.length = Xc.length) (hy : Yl.length = Xc.length)
    (hok : (torchStackOk Xc && torchStackOk Yl && torchStackOk Xs && torchStackOk Xm) = true) :
    ∃ d : KittiDepthDataset, KittiDepthDataset.make Xc Xs Xm Yl = Except.ok d
      ∧ d.len = Xc.length ∧ d.X.length = d.len ∧ d.X_sensor.length = d.len
      ∧ d.X_mask.length = d.len ∧ d.Y.length = d.len := by
  refine ⟨⟨Xc, Xs, Xm, Yl⟩, ?_, rfl, rfl, hs, hm, hy⟩
  unfold KittiDepthDataset.make
  rw [if_pos hok]

/-- Claim C7 witness: a construction from four equal-length singleton
lists succeeds with all lengths agreeing. -/
theorem c7_equal_length_parallel_witness :
    ∃ d : KittiDepthDataset,
      KittiDepthDataset.make [demoTensor] [demoTensor] [demoTensor] [demoTensor] = Except.ok d
      ∧ d.len = 1 ∧ d.X.length = d.len ∧ d.X_sensor.length = d.len
      ∧ d.X_mask.length = d.len ∧ d.Y.length = d.len :=
  c7_equal_length_parallel [demoTensor] [demoTensor] [demoTensor] [demoTensor] rfl rfl rfl rfl

theorem validateSplit_ok_iff {n : Nat} {ratio : ℚ} {p : Nat × Nat} :
    validateSplit n ratio = Except.ok p ↔
      nTestOf ratio n < n ∧ p = (n - nTestOf ratio n, nTestOf ratio n) := by
  unfold validateSplit
  by_cases hz : n - nTestOf ratio n = 0
  · rw [if_pos hz]
    constructor
    · intro h; simp at h
    · rintro ⟨h1, -⟩; exact absurd h1 (by omega)
  · rw [if_neg hz]
    constructor
    · intro h; injection h with h2; exact ⟨by omega, h2.symm⟩
    · rintro ⟨-, h2⟩; rw [h2]

theorem splitIdx_parts (n nTe : Nat) (sh : Bool) (perm : List Nat)
    (hperm : perm.Perm (List.range n)) (hTe : nTe ≤ n) :
    ((splitIdx n (n - nTe) nTe sh perm).1.length = n - nTe)
    ∧ ((splitIdx n (n - nTe) nTe sh perm).2.length = nTe)
    ∧ (splitIdx n (n - nTe) nTe sh perm).1.Nodup
    ∧ (splitIdx n (n - nTe) nTe sh perm).2.Nodup
    ∧ List.Disjoint (splitIdx n (n - nTe) nTe sh perm).1 (splitIdx n (n - nTe) nTe sh perm).2
    ∧ (∀ i ∈ (splitIdx n (n - nTe) nTe sh perm).1, i < n)
    ∧ (∀ i ∈ (splitIdx n (n - nTe) nTe sh perm).2, i < n) := by
  have hlen : perm.length = n := by simpa using hperm.length_eq
  have hnd : perm.Nodup := hperm.nodup_iff.mpr (List.nodup_range n)
  have hmem : ∀ i ∈ perm, i < n := fun i hi => List.mem_range.mp (hperm.subset hi)
  cases sh with
  | true =>
    have e1 : (splitIdx n (n - nTe) nTe true perm).1 = (perm.drop nTe).take (n - nTe) := rfl
    have e2 : (splitIdx n (n - nTe) nTe true perm).2 = perm.take nTe := rfl
    rw [e1, e2]
    refine ⟨?_, ?_, ?_, ?_, ?_, ?_, ?_⟩
    · rw [List.length_take, List.length_drop, hlen]; exact Nat.min_self _
    · rw [List.length_take, hlen]; exact Nat.min_eq_left hTe
    · exact List.Nodup.sublist ((List.take_sublist _ _).trans (List.drop_sublist _ _)) hnd
    · exact List.Nodup.sublist (List.take_sublist _ _) hnd
    · intro a ha hb
      exact List.disjoint_take_drop hnd (Nat.le_refl nTe) hb (List.take_subset _ _ ha)
    · intro i hi
      exact hmem i (List.drop_subset _ _ (List.take_subset _ _ hi))
    · intro i hi
      exact hmem i (List.take_subset _ _ hi)
  | false =>
    have e1 : (splitIdx n (n - nTe) nTe false perm).1 = (List.range n).take (n - nTe) := rfl
    have e2 : (splitIdx n (n - nTe) nTe false perm).2 =
        ((List.range n).drop (n - nTe)).take nTe := rfl
    rw [e1, e2]
    have hrn : n - (n - nTe) = nTe := by omega
    refine ⟨?_, ?_, ?_, ?_, ?_, ?_, ?_⟩
    · rw [List.length_take, List.length_range]; exact Nat.min_eq_left (Nat.sub_le n nTe)
    · rw [List.length_take, List.length_drop, List.length_range, hrn]; exact Nat.min_self _
    · exact List.Nodup.sublist (List.take_sublist _ _) (List.nodup_range n)
    · exact List.Nodup.sublist ((List.take_sublist _ _).trans (List.drop_sublist _ _))
        (List.nodup_range n)
    · intro a ha hb
      exact List.disjoint_take_drop (List.nodup_range n) (Nat.le_refl (n - nTe)) ha
        (List.take_subset _ _ hb)
    · intro i hi
      exact List.mem_range.mp (List.take_subset _ _ hi)
    · intro i hi
      exact List.mem_range.mp (List.drop_subset _ _ (List.take_subset _ _ hi))

theorem selectIdx_length {α : Type} (xs : List α) :
    ∀ idx : List Nat, (∀ i ∈ idx, i < xs.length) → (selectIdx idx xs).length = idx.length := by
  intro idx
  induction idx with
  | nil => intro _; rfl
  | cons i t ih =>
    intro hall
    have hi : i < xs.length := hall i (List.mem_cons_self i t)
    have ht := ih (fun j hj => hall j (List.mem_cons_of_mem i hj))
    simp [selectIdx, List.filterMap_cons, List.getElem?_eq_getElem hi] at ht ⊢
    exact ht

theorem collectE_ok_length {β : Type} (f : String → Except LoadErr β) :
    ∀ {l : List String} {bs : List β}, collectE f l = Except.ok bs → bs.length = l.length := by
  intro l
  induction l with
  | nil =>
    intro bs h
    simp only [collectE] at h
    injection h with h1
    rw [← h1]
    rfl
  | cons nm rest ih =>
    intro bs h
    simp only [collectE] at h
    rcases except_bind_ok.mp h with ⟨b, _, h2⟩
    rcases except_map_ok.mp h2 with ⟨bs2, hbs2, h3⟩
    rw [← h3]
    simp [ih hbs2]

theorem collectE_ok_mem {β : Type} (f : String → Except LoadErr β) :
    ∀ {l : List String} {bs : List β}, collectE f l = Except.ok bs →
      ∀ b ∈ bs, ∃ nm ∈ l, f nm = Except.ok b := by
  intro l
  induction l with
  | nil =>
    intro bs h b hb
    simp only [collectE] at h
    injection h with h1
    rw [← h1] at hb
    simp at hb
  | cons nm rest ih =>
    intro bs h b hb
    simp only [collectE] at h
    rcases except_bind_ok.mp h with ⟨b0, hb0, h2⟩
    rcases except_map_ok.mp h2 with ⟨bs2, hbs2, h3⟩
    rw [← h3] at hb
    rcases List.mem_cons.mp hb with rfl | hmem
    · exact ⟨nm, List.mem_cons_self nm rest, hb0⟩
    · rcases ih hbs2 b hmem with ⟨nm2, hnm2, hf⟩
      exact ⟨nm2, List.mem_cons_of_mem nm hnm2, hf⟩

theorem readImg_ok_iff {fs : FS} {p : String} {img : PILImg} :
    readImg fs p = Except.ok img ↔ fs.read p = some img := by
  unfold readImg
  cases h : fs.read p <;> simp

theorem semMake_ok_inv {X Y : List Tensor} {d : KittiSemanticsDataset}
    (h : KittiSemanticsDataset.make X Y = Except.ok d) : d = ⟨X, Y⟩ := by
  unfold KittiSemanticsDataset.make at h
  split at h
  · injection h with h1
    exact h1.symm
  · simp at h

theorem depthMake_ok_inv {Xc Xs Xm Yl : List Tensor} {d : KittiDepthDataset}
    (h : KittiDepthDataset.make Xc Xs Xm Yl = Except.ok d) : d = ⟨Xc, Xs, Xm, Yl⟩ := by
  unfold KittiDepthDataset.make at h
  split at h
  · injection h with h1
    exact h1.symm
  · simp at h

theorem train_test_split2_ok_inv {α : Type} {X Y : List α} {ratio : ℚ} {sh : Bool}
    {perm : List Nat} {s : Split2 α}
    (h : train_test_split2 X Y ratio sh perm = Except.ok s) :
    Y.length = X.length ∧ nTestOf ratio X.length < X.length ∧
      s = ⟨selectIdx (splitTrainIdx X.length ratio sh perm) X,
           selectIdx (splitTestIdx X.length ratio sh perm) X,
           selectIdx (splitTrainIdx X.length ratio sh perm) Y,
           selectIdx (splitTestIdx X.length ratio sh perm) Y⟩ := by
  unfold train_test_split2 at h
  split at h
  case isTrue hxy =>
    rcases except_bind_ok.mp h with ⟨nn, hv, h2⟩
    rcases validateSplit_ok_iff.mp hv with ⟨hTe, rfl⟩
    injection h2 with h3
    exact ⟨hxy, hTe, h3.symm⟩
  case isFalse => simp at h

/-- Claim C3: for every collected pair list and every split over a true
RNG permutation, train and validation partition the collection —
`len(train) + len(val) = N` with disjoint, duplicate-free index sets —
and the semantics loader reports train/validation dataset sizes summing
to the number of globbed training files. -/
theorem c3_split_partition :
    (∀ {α : Type} (X Y : List α) (ratio : ℚ) (sh : Bool) (perm : List Nat),
      Y.length = X.length →
      perm.Perm (List.range X.length) →
      nTestOf ratio X.length < X.length →
      train_test_split2 X Y ratio sh perm =
        Except.ok ⟨selectIdx (splitTrainIdx X.length ratio sh perm) X,
                   selectIdx (splitTestIdx X.length ratio sh perm) X,
                   selectIdx (splitTrainIdx X.length ratio sh perm) Y,
                   selectIdx (splitTestIdx X.length ratio sh perm) Y⟩
      ∧ (selectIdx (splitTrainIdx X.length ratio sh perm) X).length +
          (selectIdx (splitTestIdx X.length ratio sh perm) X).length = X.length
      ∧ List.Disjoint (splitTrainIdx X.length ratio sh perm) (splitTestIdx X.length ratio sh perm)
      ∧ (splitTrainIdx X.length ratio sh perm).Nodup
      ∧ (splitTestIdx X.length ratio sh perm).Nodup)
    ∧ (∀ (resample : Resample) (fs : FS) (p : String) (ratio : ℚ) (sh : Bool)
        (perm : List Nat) (tr va te : KittiSemanticsDataset),
        perm.Perm (List.range (fs.listing ("training/image_2")).length) →
        load_kitti_semantics_dataset resample (PyArg.path p) ratio sh perm fs =
          Except.ok (tr, va, te) →
        tr.len + va.len = (fs.listing ("training/image_2")).length) := by
  constructor
  · intro α X Y ratio sh perm hYX hperm hTe
    obtain ⟨hl1, hl2, hnd1, hnd2, hdis, hm1, hm2⟩ :=
      splitIdx_parts X.length (nTestOf ratio X.length) sh perm hperm (Nat.le_of_lt hTe)
    have hv : validateSplit X.length ratio =
        Except.ok (X.length - nTestOf ratio X.length, nTestOf ratio X.length) :=
      validateSplit_ok_iff.mpr ⟨hTe, rfl⟩
    refine ⟨?_, ?_, hdis, hnd1, hnd2⟩
    · unfold train_test_split2
      rw [if_pos hYX, hv]
      rfl
    · have e1 : (selectIdx (splitTrainIdx X.length ratio sh perm) X).length =
          (splitTrainIdx X.length ratio sh perm).length := selectIdx_length X _ hm1
      have e2 : (selectIdx (splitTestIdx X.length ratio sh perm) X).length =
          (splitTestIdx X.length ratio sh perm).length := selectIdx_length X _ hm2
      have e3 : (splitTrainIdx X.length ratio sh perm).length =
          X.length - nTestOf ratio X.length := hl1
      have e4 : (splitTestIdx X.length ratio sh perm).length = nTestOf ratio X.length := hl2
      rw [e1, e2, e3, e4]
      omega
  · intro resample fs p ratio sh perm tr va te hperm hok
    unfold load_kitti_semantics_dataset at hok
    rcases except_bind_ok.mp hok with ⟨dir, hdir, hok2⟩
    rcases except_bind_ok.mp hok2 with ⟨xy, hxy, hok3⟩
    rcases except_bind_ok.mp hok3 with ⟨s, hs, hok4⟩
    rcases except_bind_ok.mp hok4 with ⟨xyT, hxyT, hok5⟩
    rcases except_bind_ok.mp hok5 with ⟨trD, htr, hok6⟩
    rcases except_bind_ok.mp hok6 with ⟨vaD, hva, hok7⟩
    rcases except_map_ok.mp hok7 with ⟨teD, hte, heq⟩
    injection heq with h1 h23
    injection h23 with h2 h3
    subst h1
    subst h2
    subst h3
    have hn : (xy.map (Prod.fst (β := Tensor))).length = (fs.listing ("training/image_2")).length := by
      rw [List.length_map]
      exact collectE_ok_length _ hxy
    rcases train_test_split2_ok_inv hs with ⟨hYX, hTe, hsval⟩
    have hperm2 : perm.Perm (List.range (xy.map (Prod.fst (β := Tensor))).length) := by
      rw [hn]
      exact hperm
    obtain ⟨hl1, hl2, hnd1, hnd2, hdis, hm1, hm2⟩ :=
      splitIdx_parts (xy.map (Prod.fst (β := Tensor))).length
        (nTestOf ratio (xy.map (Prod.fst (β := Tensor))).length) sh perm hperm2
        (Nat.le_of_lt hTe)
    have htr2 := semMake_ok_inv htr
    have hva2 := semMake_ok_inv hva
    rw [← hn]
    subst htr2
    subst hva2
    subst hsval
    unfold KittiSemanticsDataset.len
    dsimp only
    have e1 : (selectIdx (splitTrainIdx (xy.map Prod.fst).length ratio sh perm)
        (xy.map Prod.fst)).length =
        (xy.map Prod.fst).length - nTestOf ratio (xy.map Prod.fst).length := by
      rw [selectIdx_length (xy.map Prod.fst)
        (splitTrainIdx (xy.map Prod.fst).length ratio sh perm) hm1]
      exact hl1
    have e2 : (selectIdx (splitTestIdx (xy.map Prod.fst).length ratio sh perm)
        (xy.map Prod.fst)).length = nTestOf ratio (xy.map Prod.fst).length := by
      rw [selectIdx_length (xy.map Prod.fst)
        (splitTestIdx (xy.map Prod.fst).length ratio sh perm) hm2]
      exact hl2
    rw [e1, e2]
    omega

/-- Claim C3 witness: ten pairs at ratio 1/5 split into eight train and
two validation samples, and on a two-pair fixture filesystem the loader
reports `len(train) + len(val) = 2`. -/
theorem c3_split_partition_witness :
    (train_test_split2 (List.range 10) (List.range 10) ratioFifth true (List.range 10) =
      Except.ok ⟨selectIdx (splitTrainIdx (List.range 10).length ratioFifth true (List.range 10)) (List.range 10),
                 selectIdx (splitTestIdx (List.range 10).length ratioFifth true (List.range 10)) (List.range 10),
                 selectIdx (splitTrainIdx (List.range 10).length ratioFifth true (List.range 10)) (List.range 10),
                 selectIdx (splitTestIdx (List.range 10).length ratioFifth true (List.range 10)) (List.range 10)⟩)
    ∧ (selectIdx (splitTrainIdx (List.range 10).length ratioFifth true (List.range 10)) (List.range 10)).length = 8
    ∧ (selectIdx (splitTestIdx (List.range 10).length ratioFifth true (List.range 10)) (List.range 10)).length = 2
    ∧ semResW.1.len + semResW.2.1.len = 2 := by
  refine ⟨(c3_split_partition.1 (List.range 10) (List.range 10) ratioFifth true (List.range 10)
      rfl (List.Perm.refl _) (by decide)).1, by decide, by decide, ?_⟩
  exact (c3_split_partition.2 resampleW fsSemW ("root") ratioFifth true (List.range 2)
    semResW.1 semResW.2.1 semResW.2.2 (List.Perm.refl _) (by rfl)).trans (by rfl)

/-- Claim C4: the train/validation split is a deterministic function of
the collected arrays, the ratio, the shuffle flag, and the RNG
permutation drawn from `random_state` (equal inputs give equal outputs),
and the four parallel depth collections are split by one shared index
partition: the same train-index list and the same test-index list select
from all four arrays. -/
theorem c4_split_single_permutation :
    (∀ {α : Type} (A B C D : List α) (ratio : ℚ) (sh : Bool) (perm : List Nat),
      B.length = A.length → C.length = A.length → D.length = A.length →
      nTestOf ratio A.length < A.length →
      train_test_split4 A B C D ratio sh perm =
        Except.ok ⟨selectIdx (splitTrainIdx A.length ratio sh perm) A,
                   selectIdx (splitTestIdx A.length ratio sh perm) A,
                   selectIdx (splitTrainIdx A.length ratio sh perm) B,
                   selectIdx (splitTestIdx A.length ratio sh perm) B,
                   selectIdx (splitTrainIdx A.length ratio sh perm) C,
                   selectIdx (splitTestIdx A.length ratio sh perm) C,
                   selectIdx (splitTrainIdx A.length ratio sh perm) D,
                   selectIdx (splitTestIdx A.length ratio sh perm) D⟩)
    ∧ (∀ {α : Type} (A B C D A2 B2 C2 D2 : List α) (ratio ratio2 : ℚ) (sh sh2 : Bool)
        (perm perm2 : List Nat),
        A = A2 → B = B2 → C = C2 → D = D2 → ratio = ratio2 → sh = sh2 → perm = perm2 →
        train_test_split4 A B C D ratio sh perm =
          train_test_split4 A2 B2 C2 D2 ratio2 sh2 perm2) := by
  constructor
  · intro α A B C D ratio sh perm hB hC hD hTe
    have hv : validateSplit A.length ratio =
        Except.ok (A.length - nTestOf ratio A.length, nTestOf ratio A.length) :=
      validateSplit_ok_iff.mpr ⟨hTe, rfl⟩
    unfold train_test_split4
    rw [if_pos ⟨hB, hC, hD⟩, hv]
    rfl
  · rintro α A B C D A2 B2 C2 D2 ratio ratio2 sh sh2 perm perm2 rfl rfl rfl rfl rfl rfl rfl
    rfl

/-- Claim C4 witness: four parallel ten-element arrays at ratio 1/5 over
the identity permutation are split by one shared index partition, and a
repeated invocation with equal arguments returns the same value. -/
theorem c4_split_single_permutation_witness :
    (train_test_split4 (List.range 10) (List.range 10) (List.range 10) (List.range 10)
        ratioFifth true (List.range 10) =
      Except.ok ⟨selectIdx (splitTrainIdx (List.range 10).length ratioFifth true (List.range 10)) (List.range 10),
                 selectIdx (splitTestIdx (List.range 10).length ratioFifth true (List.range 10)) (List.range 10),
                 selectIdx (splitTrainIdx (List.range 10).length ratioFifth true (List.range 10)) (List.range 10),
                 selectIdx (splitTestIdx (List.range 10).length ratioFifth true (List.range 10)) (List.range 10),
                 selectIdx (splitTrainIdx (List.range 10).length ratioFifth true (List.range 10)) (List.range 10),
                 selectIdx (splitTestIdx (List.range 10).length ratioFifth true (List.range 10)) (List.range 10),
                 selectIdx (splitTrainIdx (List.range 10).length ratioFifth true (List.range 10)) (List.range 10),
                 selectIdx (splitTestIdx (List.range 10).length ratioFifth true (List.range 10)) (List.range 10)⟩)
    ∧ train_test_split4 [0, 1] [0, 1] [0, 1] [0, 1] ratioFifth true [1, 0] =
        train_test_split4 [0, 1] [0, 1] [0, 1] [0, 1] ratioFifth true [1, 0] :=
  ⟨c4_split_single_permutation.1 (List.range 10) (List.range 10) (List.range 10) (List.range 10)
      ratioFifth true (List.range 10) rfl rfl rfl (by decide),
   c4_split_single_permutation.2 [0, 1] [0, 1] [0, 1] [0, 1] [0, 1] [0, 1] [0, 1] [0, 1]
      ratioFifth ratioFifth true true [1, 0] [1, 0] rfl rfl rfl rfl rfl rfl rfl⟩

theorem mem_of_getElemOpt {α : Type} :
    ∀ (l : List α) (i : Nat) (a : α), l[i]? = some a → a ∈ l := by
  intro l
  induction l with
  | nil => intro i a h; simp at h
  | cons x xs ih =>
    intro i a h
    cases i with
    | zero =>
      simp at h
      rw [← h]
      exact List.mem_cons_self x xs
    | succ j =>
      simp at h
      exact List.mem_cons_of_mem x (ih j a h)

theorem preprocess_c_shape (resample : Resample) (img : PILImg) :
    (preprocess_c resample img).shape = [img.channels, 352, 1216] := rfl

theorem preprocess_d_convertF_shape (resample : Resample) (img : PILImg) :
    (preprocess_d resample (convertF img)).shape = [1, 352, 1216] := rfl

theorem zeros_like_shape (t : Tensor) : (zeros_like t).shape = t.shape := rfl

theorem zeros_like_data_zero (t : Tensor) : ∀ v ∈ (zeros_like t).data, v = 0 := by
  intro v hv
  rcases List.mem_map.mp hv with ⟨a, _, h⟩
  exact h.symm

theorem processDepthTest_ok_inv {resample : Resample} {fs : FS} {nm : String}
    {tup : Tensor × Tensor × Tensor × Tensor}
    (h : processDepthTest resample fs nm = Except.ok tup) :
    ∃ xcImg xsImg : PILImg,
      fs.read ("test_depth_completion_anonymous/image/" ++ nm) = some xcImg
      ∧ fs.read ("test_depth_completion_anonymous/velodyne_raw/" ++ nm) = some xsImg
      ∧ tup = (preprocess_c resample xcImg, (processSensor resample xsImg).1,
          (processSensor resample xsImg).2, zeros_like (preprocess_c resample xcImg)) := by
  unfold processDepthTest at h
  rcases except_bind_ok.mp h with ⟨xc, hxc, h2⟩
  rcases except_map_ok.mp h2 with ⟨xs, hxs, h3⟩
  exact ⟨xc, xs, readImg_ok_iff.mp hxc, readImg_ok_iff.mp hxs, h3.symm⟩

theorem processSemTest_ok_inv {resample : Resample} {fs : FS} {nm : String}
    {tup : Tensor × Tensor}
    (h : processSemTest resample fs nm = Except.ok tup) :
    ∃ xImg : PILImg, fs.read ("testing/image_2/" ++ nm) = some xImg
      ∧ tup = (preprocess_c resample xImg, zeros_like (preprocess_c resample xImg)) := by
  unfold processSemTest at h
  rcases except_map_ok.mp h with ⟨x, hx, h2⟩
  exact ⟨x, readImg_ok_iff.mp hx, h2.symm⟩

/-- Claim C5: every test sample synthesized by the loaders carries an
all-zero target tensor shaped like the preprocessed color input: for the
depth loader with `train=False` the target at each index is
`zeros_like` of the color tensor at that index (all data zero; shape
`[3, 352, 1216]` when the color files are RGB, unlike the `[1, 352,
1216]` sensor tensors), and for the semantics test split the target is
`zeros_like` of the input tensor. -/
theorem c5_test_targets_zero_like_color :
    (∀ (resample : Resample) (arg : PyArg) (ratio : ℚ) (sh : Bool) (perm : List Nat)
        (fs : FS) (d : KittiDepthDataset),
      load_kitti_depth_dataset resample arg ratio sh perm false fs =
        Except.ok (DepthResult.testOnly d) →
      (∀ i : Nat, i < d.len → d.Y[i]? = (d.X[i]?).map zeros_like)
      ∧ (∀ (i : Nat) (t : Tensor), d.Y[i]? = some t → ∀ v ∈ t.data, v = 0)
      ∧ (∀ (i : Nat) (t : Tensor), d.X_sensor[i]? = some t → t.shape = [1, 352, 1216])
      ∧ ((∀ nm ∈ fs.listing ("test_depth_completion_anonymous/image"), ∀ img : PILImg,
            fs.read ("test_depth_completion_anonymous/image/" ++ nm) = some img →
            img.mode = PMode.RGB) →
          ∀ (i : Nat) (t : Tensor), d.Y[i]? = some t → t.shape = [3, 352, 1216]))
    ∧ (∀ (resample : Resample) (arg : PyArg) (ratio : ℚ) (sh : Bool) (perm : List Nat)
        (fs : FS) (tr va te : KittiSemanticsDataset),
      load_kitti_semantics_dataset resample arg ratio sh perm fs = Except.ok (tr, va, te) →
      ∀ i : Nat, i < te.len → te.Y[i]? = (te.X[i]?).map zeros_like) := by
  constructor
  · intro resample arg ratio sh perm fs d hok
    unfold load_kitti_depth_dataset at hok
    rcases except_bind_ok.mp hok with ⟨dir, hdir, hok2⟩
    rw [if_neg (by decide)] at hok2
    rcases except_bind_ok.mp hok2 with ⟨l, hl, hok3⟩
    rcases except_map_ok.mp hok3 with ⟨teD, hmk, heq⟩
    injection heq with h1
    subst h1
    have hd := depthMake_ok_inv hmk
    subst hd
    have key : ∀ tup ∈ l, ∃ nm ∈ fs.listing ("test_depth_completion_anonymous/image"),
        processDepthTest resample fs nm = Except.ok tup := collectE_ok_mem _ hl
    refine ⟨?_, ?_, ?_, ?_⟩
    · intro i hi
      have hi' : i < l.length := by
        unfold KittiDepthDataset.len at hi
        simpa using hi
      have htup : l[i]? = some l[i] := List.getElem?_eq_getElem hi'
      dsimp only
      rw [List.getElem?_map, List.getElem?_map, htup]
      rcases key l[i] (List.getElem_mem hi') with ⟨nm, hnm, hp⟩
      rcases processDepthTest_ok_inv hp with ⟨xc, xs, hrc, hrs, htupEq⟩
      rw [htupEq]
      rfl
    · intro i t ht
      dsimp only at ht
      rw [List.getElem?_map] at ht
      cases hq : l[i]? with
      | none => rw [hq] at ht; simp at ht
      | some tup =>
        rw [hq] at ht
        injection ht with ht2
        rcases key tup (mem_of_getElemOpt l i tup hq) with ⟨nm, hnm, hp⟩
        rcases processDepthTest_ok_inv hp with ⟨xc, xs, hrc, hrs, htupEq⟩
        rw [← ht2, htupEq]
        exact zeros_like_data_zero _
    · intro i t ht
      dsimp only at ht
      rw [List.getElem?_map] at ht
      cases hq : l[i]? with
      | none => rw [hq] at ht; simp at ht
      | some tup =>
        rw [hq] at ht
        injection ht with ht2
        rcases key tup (mem_of_getElemOpt l i tup hq) with ⟨nm, hnm, hp⟩
        rcases processDepthTest_ok_inv hp with ⟨xc, xs, hrc, hrs, htupEq⟩
        rw [← ht2, htupEq]
        rfl
    · intro hRGB i t ht
      dsimp only at ht
      rw [List.getElem?_map] at ht
      cases hq : l[i]? with
      | none => rw [hq] at ht; simp at ht
      | some tup =>
        rw [hq] at ht
        injection ht with ht2
        rcases key tup (mem_of_getElemOpt l i tup hq) with ⟨nm, hnm, hp⟩
        rcases processDepthTest_ok_inv hp with ⟨xc, xs, hrc, hrs, htupEq⟩
        have hmode : xc.mode = PMode.RGB := hRGB nm hnm xc hrc
        rw [← ht2, htupEq]
        show (zeros_like (preprocess_c resample xc)).shape = [3, 352, 1216]
        rw [zeros_like_shape, preprocess_c_shape]
        unfold PILImg.channels
        rw [hmode]
  · intro resample arg ratio sh perm fs tr va te hok
    unfold load_kitti_semantics_dataset at hok
    rcases except_bind_ok.mp hok with ⟨dir, hdir, hok2⟩
    rcases except_bind_ok.mp hok2 with ⟨xy, hxy, hok3⟩
    rcases except_bind_ok.mp hok3 with ⟨s, hs, hok4⟩
    rcases except_bind_ok.mp hok4 with ⟨xyT, hxyT, hok5⟩
    rcases except_bind_ok.mp hok5 with ⟨trD, htr, hok6⟩
    rcases except_bind_ok.mp hok6 with ⟨vaD, hva, hok7⟩
    rcases except_map_ok.mp hok7 with ⟨teD, hte, heq⟩
    injection heq with h1 h23
    injection h23 with h2 h3
    subst h1
    subst h2
    subst h3
    have hteD := semMake_ok_inv hte
    subst hteD
    have key : ∀ tup ∈ xyT, ∃ nm ∈ fs.listing ("testing/image_2"),
        processSemTest resample fs nm = Except.ok tup := collectE_ok_mem _ hxyT
    intro i hi
    have hi' : i < xyT.length := by
      unfold KittiSemanticsDataset.len at hi
      simpa using hi
    have htup : xyT[i]? = some xyT[i] := List.getElem?_eq_getElem hi'
    dsimp only
    rw [List.getElem?_map, List.getElem?_map, htup]
    rcases key xyT[i] (List.getElem_mem hi') with ⟨nm, hnm, hp⟩
    rcases processSemTest_ok_inv hp with ⟨x, hx, htupEq⟩
    rw [htupEq]
    rfl

/-- Claim C5 witness: on the fixture filesystems, the depth test dataset
and the semantics test dataset both pair each color input with a
`zeros_like` copy of it as the target. -/
theorem c5_test_targets_zero_like_color_witness :
    (∀ i, i < depthTestW.len → depthTestW.Y[i]? = (depthTestW.X[i]?).map zeros_like)
    ∧ (∀ i, i < semResW.2.2.len → semResW.2.2.Y[i]? = (semResW.2.2.X[i]?).map zeros_like) := by
  constructor
  · exact (c5_test_targets_zero_like_color.1 resampleW (PyArg.path ("root")) ratioFifth true []
      fsDepthW depthTestW (by rfl)).1
  · exact c5_test_targets_zero_like_color.2 resampleW (PyArg.path ("root")) ratioFifth true
      (List.range 2) fsSemW semResW.1 semResW.2.1 semResW.2.2 (by rfl)

theorem nte_bind {α β : Type} {x : Except LoadErr α} {f : α → Except LoadErr β}
    (hx : notTypeError x = true) (hf : ∀ a, notTypeError (f a) = true) :
    notTypeError (x.bind f) = true := by
  cases x with
  | error e =>
    simp only [Except.bind]
    cases e <;> first | rfl | exact hx
  | ok a =>
    simp only [Except.bind]
    exact hf a

theorem nte_map {α β : Type} {x : Except LoadErr α} (g : α → β)
    (hx : notTypeError x = true) : notTypeError (Except.map g x) = true := by
  cases x with
  | error e =>
    simp only [Except.map]
    cases e <;> first | rfl | exact hx
  | ok a => rfl

theorem nte_readImg (fs : FS) (p : String) : notTypeError (readImg fs p) = true := by
  unfold readImg
  cases fs.read p <;> rfl

theorem nte_depthTrainFilename (nm : String) :
    notTypeError (depthTrainFilename nm) = true := by
  unfold depthTrainFilename
  split <;> rfl

theorem nte_validateSplit (n : Nat) (ratio : ℚ) :
    notTypeError (validateSplit n ratio) = true := by
  unfold validateSplit
  split <;> rfl

theorem nte_split2 {α : Type} (X Y : List α) (ratio : ℚ) (sh : Bool) (perm : List Nat) :
    notTypeError (train_test_split2 X Y ratio sh perm) = true := by
  unfold train_test_split2
  split
  · exact nte_bind (nte_validateSplit _ _) (fun _ => rfl)
  · rfl

theorem nte_split4 {α : Type} (A B C D : List α) (ratio : ℚ) (sh : Bool) (perm : List Nat) :
    notTypeError (train_test_split4 A B C D ratio sh perm) = true := by
  unfold train_test_split4
  split
  · exact nte_bind (nte_validateSplit _ _) (fun _ => rfl)
  · rfl

theorem nte_semMake (X Y : List Tensor) :
    notTypeError (KittiSemanticsDataset.make X Y) = true := by
  unfold KittiSemanticsDataset.make
  split <;> rfl

theorem nte_depthMake (Xc Xs Xm Yl : List Tensor) :
    notTypeError (KittiDepthDataset.make Xc Xs Xm Yl) = true := by
  unfold KittiDepthDataset.make
  split <;> rfl

theorem nte_collectE {β : Type} (f : String → Except LoadErr β)
    (hf : ∀ nm, notTypeError (f nm) = true) :
    ∀ l : List String, notTypeError (collectE f l) = true := by
  intro l
  induction l with
  | nil => rfl
  | cons nm rest ih => exact nte_bind (hf nm) (fun b => nte_map _ ih)

theorem nte_processSemTrain (resample : Resample) (fs : FS) (nm : String) :
    notTypeError (processSemTrain resample fs nm) = true := by
  unfold processSemTrain
  exact nte_bind (nte_readImg _ _) (fun _ => nte_map _ (nte_readImg _ _))

theorem nte_processSemTest (resample : Resample) (fs : FS) (nm : String) :
    notTypeError (processSemTest resample fs nm) = true := by
  unfold processSemTest
  exact nte_map _ (nte_readImg _ _)

theorem nte_processDepthTrain (resample : Resample) (fs : FS) (nm : String) :
    notTypeError (processDepthTrain resample fs nm) = true := by
  unfold processDepthTrain
  exact nte_bind (nte_readImg _ _) (fun _ =>
    nte_bind (nte_depthTrainFilename _) (fun _ =>
      nte_bind (nte_readImg _ _) (fun _ => nte_map _ (nte_readImg _ _))))

theorem nte_processDepthTest (resample : Resample) (fs : FS) (nm : String) :
    notTypeError (processDepthTest resample fs nm) = true := by
  unfold processDepthTest
  exact nte_bind (nte_readImg _ _) (fun _ => nte_map _ (nte_readImg _ _))

/-- Claim C6: for a `load_dir` that is neither a Path nor a str, both
loaders raise TypeError no matter what the filesystem holds — the check
runs before any file access or dataset construction, and no partial
result escapes; for a Path or str argument, no invocation of either
loader ever produces that TypeError, whatever the filesystem. -/
theorem c6_load_dir_type_check :
    (∀ (resample : Resample) (r : String) (ratio : ℚ) (sh : Bool) (perm : List Nat) (fs : FS),
      load_kitti_semantics_dataset resample (PyArg.other r) ratio sh perm fs =
        Except.error LoadErr.typeError)
    ∧ (∀ (resample : Resample) (r : String) (ratio : ℚ) (sh : Bool) (perm : List Nat)
        (train : Bool) (fs : FS),
      load_kitti_depth_dataset resample (PyArg.other r) ratio sh perm train fs =
        Except.error LoadErr.typeError)
    ∧ (∀ (resample : Resample) (p : String) (ratio : ℚ) (sh : Bool) (perm : List Nat) (fs : FS),
      notTypeError (load_kitti_semantics_dataset resample (PyArg.path p) ratio sh perm fs) = true)
    ∧ (∀ (resample : Resample) (s : String) (ratio : ℚ) (sh : Bool) (perm : List Nat) (fs : FS),
      notTypeError (load_kitti_semantics_dataset resample (PyArg.str s) ratio sh perm fs) = true)
    ∧ (∀ (resample : Resample) (p : String) (ratio : ℚ) (sh : Bool) (perm : List Nat)
        (train : Bool) (fs : FS),
      notTypeError (load_kitti_depth_dataset resample (PyArg.path p) ratio sh perm train fs) = true)
    ∧ (∀ (resample : Resample) (s : String) (ratio : ℚ) (sh : Bool) (perm : List Nat)
        (train : Bool) (fs : FS),
      notTypeError (load_kitti_depth_dataset resample (PyArg.str s) ratio sh perm train fs) = true) := by
  have hsem : ∀ (resample : Resample) (arg : PyArg) (dir : String) (ratio : ℚ) (sh : Bool)
      (perm : List Nat) (fs : FS), checkLoadDir arg = Except.ok dir →
      notTypeError (load_kitti_semantics_dataset resample arg ratio sh perm fs) = true := by
    intro resample arg dir ratio sh perm fs hchk
    unfold load_kitti_semantics_dataset
    refine nte_bind (x := checkLoadDir arg) ?_ ?_
    · rw [hchk]; rfl
    · intro _
      refine nte_bind (nte_collectE _ (nte_processSemTrain resample fs) _) (fun xy => ?_)
      refine nte_bind (nte_split2 _ _ _ _ _) (fun s => ?_)
      refine nte_bind (nte_collectE _ (nte_processSemTest resample fs) _) (fun xyT => ?_)
      refine nte_bind (nte_semMake _ _) (fun trD => ?_)
      refine nte_bind (nte_semMake _ _) (fun vaD => ?_)
      exact nte_map _ (nte_semMake _ _)
  have hdep : ∀ (resample : Resample) (arg : PyArg) (dir : String) (ratio : ℚ) (sh : Bool)
      (perm : List Nat) (train : Bool) (fs : FS), checkLoadDir arg = Except.ok dir →
      notTypeError (load_kitti_depth_dataset resample arg ratio sh perm train fs) = true := by
    intro resample arg dir ratio sh perm train fs hchk
    unfold load_kitti_depth_dataset
    refine nte_bind (x := checkLoadDir arg) ?_ ?_
    · rw [hchk]; rfl
    · intro _
      cases train with
      | true =>
        refine nte_bind (nte_collectE _ (nte_processDepthTrain resample fs) _) (fun l => ?_)
        refine nte_bind (nte_split4 _ _ _ _ _ _ _) (fun s => ?_)
        refine nte_bind (nte_depthMake _ _ _ _) (fun trD => ?_)
        exact nte_map _ (nte_depthMake _ _ _ _)
      | false =>
        refine nte_bind (nte_collectE _ (nte_processDepthTest resample fs) _) (fun l => ?_)
        exact nte_map _ (nte_depthMake _ _ _ _)
  refine ⟨fun _ _ _ _ _ _ => rfl, fun _ _ _ _ _ _ _ => rfl, ?_, ?_, ?_, ?_⟩
  · intro resample p ratio sh perm fs
    exact hsem resample (PyArg.path p) p ratio sh perm fs rfl
  · intro resample s ratio sh perm fs
    exact hsem resample (PyArg.str s) s ratio sh perm fs rfl
  · intro resample p ratio sh perm train fs
    exact hdep resample (PyArg.path p) p ratio sh perm train fs rfl
  · intro resample s ratio sh perm train fs
    exact hdep resample (PyArg.str s) s ratio sh perm train fs rfl
